import Mathlib

/-!
Verification development for the Conway-Mint token-launcher skill.

Shallow embedding of the decision logic in
`src/skills/token-launcher/index.ts` (tool handlers and heartbeat tasks),
`src/skills/token-launcher/liquidity/fees.ts` (FeeHarvester.harvest),
`src/skills/token-launcher/monitor/survival.ts` (SurvivalMapper.checkStatus),
and `src/skills/token-launcher/monitor/portfolio.ts` (PortfolioMonitor).

Modelling conventions:
* SOL / USDC / credit amounts are embedded as exact rationals.
* Timestamps (milliseconds) are embedded as integers; each handler
  invocation sees a single instant `now`.
* External collaborators (wallet RPC, deployers, Raydium, Jupiter,
  sendSol) are oracles passed in as `Except String` results or plain
  functions; `Except.error` models a thrown exception.
* A tool handler returns a `ToolOutcome`: `success` is a structured
  payload, `err` is the returned value with an error message (the JS
  object with an error field), `thrown` is an exception escaping the
  tool boundary.
* JavaScript truthiness of the `x || d` defaulting idiom is embedded
  explicitly (`0`, empty string and `undefined` are falsy).
-/

namespace ConwayMint

/-- JS defaulting `x || d` for optional numeric parameters: `undefined`
and `0` both fall back to the default (index.ts line 117). -/
def jsOrQ (x : Option ℚ) (d : ℚ) : ℚ :=
  match x with
  | none => d
  | some v => if v = 0 then d else v

/-- JS truthiness of an optional numeric parameter (index.ts line 136). -/
def jsTruthyQ (x : Option ℚ) : Bool :=
  match x with
  | none => false
  | some v => decide (v ≠ 0)

/-- JS defaulting `x || d` for optional string parameters: `undefined`
and the empty string fall back to the default (index.ts line 213). -/
def jsOrStr (x : Option String) (d : String) : String :=
  match x with
  | none => d
  | some s => if s = "" then d else s

/-- Lifecycle status of a deployed token (index.ts line 49). -/
inductive TokenStatus where
  | active
  | dead
  | graduated
deriving DecidableEq, BEq

/-- Deployment method (index.ts line 43). -/
inductive DeployMethod where
  | pumpfun
  | raydium
  | spl_direct
deriving DecidableEq, BEq

/-- One deployed asset in the position registry (interface DeployedToken,
index.ts lines 39-50). -/
structure DeployedToken where
  mint : String
  name : String
  symbol : String
  method : DeployMethod
  deployedAt : ℤ
  lpAddress : Option String
  initialSupply : ℚ
  retainedSupply : ℚ
  totalFeesEarned : ℚ
  status : TokenStatus
deriving DecidableEq

/-- The persisted skill state touched by the handlers (`ctx.getState()` /
`ctx.setState` keys `deployedTokens`, `lastDeployTimestamp`,
`totalInvested`, `totalEarned`). The `x || 0` defaults of the source are
baked in by making every field total. -/
structure SkillState where
  deployedTokens : List DeployedToken
  lastDeployTimestamp : ℤ
  totalInvested : ℚ
  totalEarned : ℚ
deriving DecidableEq

/-- Configuration fields used by the embedded handlers
(TokenLauncherConfig, index.ts lines 25-37). -/
structure TokenLauncherConfig where
  creatorAddress : String
  creatorFeeSplit : ℚ
  pumpfunEnabled : Bool
  raydiumEnabled : Bool
  survivalReserveSol : ℚ
  maxConcurrentTokens : ℕ
  deployCooldownMs : ℤ
deriving DecidableEq

/-- Live treasury view returned by WalletManager.getTreasuryState
(treasury/wallet.ts lines 36-65). -/
structure TreasuryView where
  solBalance : ℚ
  usdcBalance : ℚ
  conwayCredits : ℚ
  walletAddress : String
deriving DecidableEq

/-- Result of a deployer collaborator (DeployResult, deployer/memecoin.ts
lines 27-34). -/
structure DeployResult where
  mint : String
  supply : ℚ
  retainedAmount : ℚ
  lpAddress : Option String
  txSignature : String
deriving DecidableEq

/-- Result of RaydiumManager.createPool (PoolCreateResult,
liquidity/raydium.ts lines 152-156). -/
structure PoolCreateResult where
  poolAddress : String
  lpMint : String
  txSignature : String
deriving DecidableEq

/-- Parameters of the deploy_memecoin tool (index.ts lines 99-107). -/
structure DeployMemecoinParams where
  name : String
  symbol : String
  description : String
  imagePrompt : Option String
  initialBuySol : Option ℚ
  lpSol : Option ℚ
  method : Option DeployMethod
deriving DecidableEq

/-- Parameters of the deploy_utility_token tool (index.ts lines 170-178). -/
structure UtilityTokenParams where
  name : String
  symbol : String
  description : String
  supply : Option ℚ
  decimals : Option ℕ
  freezeAuthority : Option Bool
  lpSol : Option ℚ
deriving DecidableEq

/-- Behaviour of the deployer and pool collaborators during one
deploy_memecoin call: `Except.error` models a thrown exception. -/
structure DeployCollab where
  pumpfunResult : Except String DeployResult
  directResult : Except String DeployResult
  createPoolResult : Except String PoolCreateResult

/-- What a tool invocation produces at the host boundary: a structured
success payload, a returned error-shaped value, or an exception
propagating past the tool boundary. -/
inductive ToolOutcome (α : Type) where
  | success (payload : α)
  | err (msg : String)
  | thrown (msg : String)
deriving DecidableEq

/-- Whether a tool outcome is a structured success. -/
def ToolOutcome.isSuccess {α : Type} : ToolOutcome α → Bool
  | .success _ => true
  | _ => false

/-- Whether a tool outcome is an exception escaping the tool boundary. -/
def ToolOutcome.isThrown {α : Type} : ToolOutcome α → Bool
  | .thrown _ => true
  | _ => false

/-- Count of positions with status active (index.ts lines 110-111). -/
def activeTokenCount (st : SkillState) : ℕ :=
  (st.deployedTokens.filter (fun t => decide (t.status = TokenStatus.active))).length

/-- Projected deployment cost: initial buy (default 0.5) plus LP
allocation (default 1.0) plus 0.05 rent/gas overhead (index.ts line 117). -/
def totalCostOf (params : DeployMemecoinParams) : ℚ :=
  jsOrQ params.initialBuySol 0.5 + jsOrQ params.lpSol 1.0 + 0.05

/-- Remaining cooldown wait reported on rejection, rounded up to whole
minutes (index.ts line 124). -/
def cooldownWaitMin (cfg : TokenLauncherConfig) (now lastDeploy : ℤ) : ℤ :=
  Int.ceil (((cfg.deployCooldownMs - (now - lastDeploy) : ℤ) : ℚ) / 60000)

/-- Structured identity of the gate rejection produced by the pre-flight
checks; each constructor corresponds to one early return of
deploy_memecoin (index.ts lines 113-126). -/
inductive Reject where
  | concurrency
  | solvency (needed : ℚ) (available : ℚ)
  | cooldown (waitMinutes : ℤ)
deriving DecidableEq

/-- The pre-flight admission gates of deploy_memecoin, in source order:
concurrency (line 113), solvency (line 118), cooldown (line 123).
Returns the first failing gate, or none when all gates admit. -/
def preflight (cfg : TokenLauncherConfig) (treasury : TreasuryView) (now : ℤ)
    (st : SkillState) (params : DeployMemecoinParams) : Option Reject :=
  if activeTokenCount st ≥ cfg.maxConcurrentTokens then
    some Reject.concurrency
  else if treasury.solBalance - totalCostOf params < cfg.survivalReserveSol then
    some (Reject.solvency (totalCostOf params)
      (treasury.solBalance - cfg.survivalReserveSol))
  else if now - st.lastDeployTimestamp < cfg.deployCooldownMs then
    some (Reject.cooldown (cooldownWaitMin cfg now st.lastDeployTimestamp))
  else
    none

/-- The human-readable error message returned for each gate rejection
(index.ts lines 114, 119, 125). -/
def rejectMsg (cfg : TokenLauncherConfig) : Reject → String
  | Reject.concurrency =>
      "Max concurrent tokens (" ++ toString cfg.maxConcurrentTokens ++
        ") reached. Harvest or retire tokens first."
  | Reject.solvency needed available =>
      "Insufficient SOL. Need " ++ toString needed ++ " but only " ++
        toString available ++ " available after survival reserve."
  | Reject.cooldown waitMinutes =>
      "Cooldown active. Wait " ++ toString waitMinutes ++ " more minutes."

/-- Whether a pre-flight result is a solvency-gate rejection. -/
def isSolvencyReject : Option Reject → Bool
  | some (Reject.solvency _ _) => true
  | _ => false

/-- The deployer / pool-creation phase of deploy_memecoin (index.ts lines
128-140): pump.fun when requested-or-defaulted and enabled, otherwise a
direct deployment followed by optional Raydium pool creation. Any
collaborator error aborts the phase with that error. -/
def deployAttempt (cfg : TokenLauncherConfig) (collab : DeployCollab)
    (params : DeployMemecoinParams) (method : DeployMethod) :
    Except String DeployResult :=
  if method = DeployMethod.pumpfun ∧ cfg.pumpfunEnabled then
    collab.pumpfunResult
  else
    match collab.directResult with
    | Except.error e => Except.error e
    | Except.ok r =>
      if cfg.raydiumEnabled ∧ jsTruthyQ params.lpSol then
        match collab.createPoolResult with
        | Except.error e => Except.error e
        | Except.ok lp => Except.ok { r with lpAddress := some lp.poolAddress }
      else
        Except.ok r

/-- The new registry entry recorded on successful deployment (index.ts
lines 143-154). -/
def mkDeployedToken (params : DeployMemecoinParams) (method : DeployMethod)
    (now : ℤ) (result : DeployResult) : DeployedToken :=
  { mint := result.mint
    name := params.name
    symbol := params.symbol
    method := method
    deployedAt := now
    lpAddress := result.lpAddress
    initialSupply := result.supply
    retainedSupply := result.retainedAmount
    totalFeesEarned := 0
    status := TokenStatus.active }

/-- The deploy_memecoin tool handler (index.ts lines 99-168). The
treasury query (line 109) happens before the try block, so its failure
escapes the boundary as an exception. On gate rejection or collaborator
failure the state is returned unchanged; on success the new position is
appended, the cooldown timestamp advanced and the spend added to
totalInvested (lines 156-160). -/
def deploy_memecoin (cfg : TokenLauncherConfig) (collab : DeployCollab)
    (treasuryQ : Except String TreasuryView) (now : ℤ)
    (params : DeployMemecoinParams) (st : SkillState) :
    ToolOutcome DeployResult × SkillState :=
  match treasuryQ with
  | Except.error e => (ToolOutcome.thrown e, st)
  | Except.ok treasury =>
    match preflight cfg treasury now st params with
    | some r => (ToolOutcome.err (rejectMsg cfg r), st)
    | none =>
      let method := params.method.getD DeployMethod.pumpfun
      match deployAttempt cfg collab params method with
      | Except.error e => (ToolOutcome.err e, st)
      | Except.ok result =>
        (ToolOutcome.success result,
          { st with
              deployedTokens :=
                st.deployedTokens ++ [mkDeployedToken params method now result]
              lastDeployTimestamp := now
              totalInvested := st.totalInvested + totalCostOf params })

/-- The new registry entry recorded by deploy_utility_token on success
(index.ts lines 187-198); method is always spl_direct. -/
def mkUtilityToken (params : UtilityTokenParams) (now : ℤ)
    (result : DeployResult) : DeployedToken :=
  { mint := result.mint
    name := params.name
    symbol := params.symbol
    method := DeployMethod.spl_direct
    deployedAt := now
    lpAddress := result.lpAddress
    initialSupply := result.supply
    retainedSupply := result.retainedAmount
    totalFeesEarned := 0
    status := TokenStatus.active }

/-- The deploy_utility_token tool handler (index.ts lines 170-208): no
pre-flight gates; deploys, optionally creates a pool, and on success
appends the position. Neither lastDeployTimestamp nor totalInvested is
touched. -/
def deploy_utility_token (cfg : TokenLauncherConfig)
    (deployRes : Except String DeployResult)
    (poolRes : Except String PoolCreateResult) (now : ℤ)
    (params : UtilityTokenParams) (st : SkillState) :
    ToolOutcome DeployResult × SkillState :=
  match deployRes with
  | Except.error e => (ToolOutcome.err e, st)
  | Except.ok r0 =>
    match (if cfg.raydiumEnabled ∧ jsTruthyQ params.lpSol then
            match poolRes with
            | Except.error e => Except.error e
            | Except.ok lp =>
                Except.ok { r0 with lpAddress := some lp.poolAddress }
          else Except.ok r0 : Except String DeployResult) with
    | Except.error e => (ToolOutcome.err e, st)
    | Except.ok r =>
      (ToolOutcome.success r,
        { st with deployedTokens := st.deployedTokens ++ [mkUtilityToken params now r] })

/-- Result of RaydiumManager.collectFees (liquidity/raydium.ts lines
300-316). -/
structure CollectFeesResult where
  solFees : ℚ
  tokenFees : ℚ
  txSignature : String
deriving DecidableEq

/-- One per-position entry of a harvest result (HarvestResult.breakdown,
liquidity/fees.ts lines 333-338). -/
structure BreakdownEntry where
  tokenMint : String
  symbol : String
  lpFees : ℚ
  creatorFees : ℚ
deriving DecidableEq

/-- Aggregate result of FeeHarvester.harvest (liquidity/fees.ts lines
331-340). -/
structure HarvestResult where
  totalHarvested : ℚ
  breakdown : List BreakdownEntry
  txSignatures : List String
deriving DecidableEq

/-- The positions in scope for a harvest call (liquidity/fees.ts lines
364-367): all active positions, or the single active position with the
target mint. -/
def activeScope (target : String) (tokens : List DeployedToken) :
    List DeployedToken :=
  if target = "all" then
    tokens.filter (fun t => decide (t.status = TokenStatus.active))
  else
    tokens.filter (fun t => decide (t.mint = target ∧ t.status = TokenStatus.active))

/-- One iteration of the harvest loop (liquidity/fees.ts lines 373-404):
LP fees are collected when the position has a pool reference, with a
thrown collector error caught and contributing zero; pump.fun creator
fees are scanned for pump.fun positions (checkPumpFunCreatorFees never
throws, modelled by the total oracle `pumpFees`). Returns the breakdown
entry and the transaction signatures pushed (placeholder signatures are
skipped, line 382). -/
def harvestEntry (lpCollect : String → Except String CollectFeesResult)
    (pumpFees : String → ℚ) (token : DeployedToken) :
    BreakdownEntry × List String :=
  let lp : ℚ × List String :=
    match token.lpAddress with
    | none => (0, [])
    | some addr =>
      if addr = "" then (0, [])
      else
        match lpCollect addr with
        | Except.error _ => (0, [])
        | Except.ok r =>
          (r.solFees, if r.txSignature = "PLACEHOLDER_TX" then [] else [r.txSignature])
  let creatorFees : ℚ :=
    if token.method = DeployMethod.pumpfun then pumpFees token.mint else 0
  ({ tokenMint := token.mint
     symbol := token.symbol
     lpFees := lp.1
     creatorFees := creatorFees }, lp.2)

/-- The accumulating harvest loop (liquidity/fees.ts lines 373-405):
running total, breakdown pushed in order, and collected signatures. -/
def harvestLoop (lpCollect : String → Except String CollectFeesResult)
    (pumpFees : String → ℚ) :
    List DeployedToken → ℚ × List BreakdownEntry × List String →
    ℚ × List BreakdownEntry × List String
  | [], acc => acc
  | t :: ts, (total, bd, sigs) =>
    let pr := harvestEntry lpCollect pumpFees t
    harvestLoop lpCollect pumpFees ts
      (total + (pr.1.lpFees + pr.1.creatorFees), bd ++ [pr.1], sigs ++ pr.2)

/-- FeeHarvester.harvest (liquidity/fees.ts lines 360-408). -/
def FeeHarvester.harvest (target : String) (tokens : List DeployedToken)
    (lpCollect : String → Except String CollectFeesResult)
    (pumpFees : String → ℚ) : HarvestResult :=
  let res := harvestLoop lpCollect pumpFees (activeScope target tokens) (0, [], [])
  { totalHarvested := res.1, breakdown := res.2.1, txSignatures := res.2.2 }

/-- Parameters of the harvest_fees tool (index.ts line 210). -/
structure HarvestParams where
  tokenMint : Option String
deriving DecidableEq

/-- The harvest_fees tool handler (index.ts lines 210-232): harvests,
adds the total to totalEarned, then attempts the creator payout split;
a payout failure is caught and returned as an error value but the
ledger update already happened and is not rolled back. -/
def harvest_fees (cfg : TokenLauncherConfig) (params : HarvestParams)
    (sendSolRes : Except String String)
    (lpCollect : String → Except String CollectFeesResult)
    (pumpFees : String → ℚ) (st : SkillState) :
    ToolOutcome HarvestResult × SkillState :=
  let result := FeeHarvester.harvest (jsOrStr params.tokenMint "all")
    st.deployedTokens lpCollect pumpFees
  let st2 : SkillState := { st with totalEarned := st.totalEarned + result.totalHarvested }
  if result.totalHarvested > 0 ∧ cfg.creatorFeeSplit > 0 then
    match sendSolRes with
    | Except.error e => (ToolOutcome.err e, st2)
    | Except.ok _ => (ToolOutcome.success result, st2)
  else
    (ToolOutcome.success result, st2)

/-- Payload returned by the check_treasury tool (index.ts lines 241-248). -/
structure CheckTreasuryPayload where
  solBalance : ℚ
  usdcBalance : ℚ
  conwayCredits : ℚ
  walletAddress : String
  totalInvested : ℚ
  totalEarned : ℚ
  netPnl : ℚ
  deployedTokenCount : ℕ
  activeTokens : ℕ
deriving DecidableEq

/-- The check_treasury tool handler (index.ts lines 238-249). The
treasury query is awaited outside any try/catch, so its failure escapes
the tool boundary as an exception. -/
def check_treasury (treasuryQ : Except String TreasuryView) (st : SkillState) :
    ToolOutcome CheckTreasuryPayload :=
  match treasuryQ with
  | Except.error e => ToolOutcome.thrown e
  | Except.ok t =>
    ToolOutcome.success
      { solBalance := t.solBalance
        usdcBalance := t.usdcBalance
        conwayCredits := t.conwayCredits
        walletAddress := t.walletAddress
        totalInvested := st.totalInvested
        totalEarned := st.totalEarned
        netPnl := st.totalEarned - st.totalInvested
        deployedTokenCount := st.deployedTokens.length
        activeTokens := activeTokenCount st }

/-- Result of JupiterSwap.swapSolToUsdc (treasury/swap.ts lines 28-32). -/
structure SwapResult where
  inputAmount : ℚ
  outputAmount : ℚ
  txSignature : String
deriving DecidableEq

/-- The swap_to_usdc tool handler (index.ts lines 251-258): the swap
collaborator call is wrapped in try/catch, so a throw becomes an error
value. -/
def swap_to_usdc (swapRes : Except String SwapResult) : ToolOutcome SwapResult :=
  match swapRes with
  | Except.error e => ToolOutcome.err e
  | Except.ok r => ToolOutcome.success r

/-- One trend entry reported by the TrendAnalyzer (strategy/analyzer.ts
lines 12-17). -/
structure TrendEntry where
  topic : String
  score : ℚ
  context : String
  suggestedAngle : String
deriving DecidableEq

/-- One top-token entry reported by the TrendAnalyzer
(strategy/analyzer.ts lines 18-24). -/
structure TopToken where
  symbol : String
  name : String
  volume24h : ℚ
  priceChange24h : ℚ
  marketCap : ℚ
deriving DecidableEq

/-- Per-source trend report (TrendData, strategy/analyzer.ts lines
10-26). -/
structure TrendData where
  source : String
  trends : List TrendEntry
  topTokens : List TopToken
  timestamp : ℤ
deriving DecidableEq

/-- TrendAnalyzer.analyze (strategy/analyzer.ts lines 35-53): loops over
the requested sources, pushing one report per recognised source. Each
per-source handler (analyzeDexScreener, analyzeTwitterTrends,
analyzeRedditTrends) wraps its fetch in try/catch and returns an empty
report on failure, so each is a total oracle `sourceData`; unrecognised
sources fall through the switch and push nothing. -/
def TrendAnalyzer.analyze (sourceData : String → TrendData)
    (sources : List String) : List TrendData :=
  sources.foldl
    (fun results source =>
      if source = "dexscreener" ∨ source = "twitter" ∨ source = "reddit" then
        results ++ [sourceData source]
      else results)
    []

/-- The analyze_trends tool handler (index.ts lines 260-262): returns
the analyzer result directly; `params.sources || ["dexscreener"]` with
an array operand defaults only on `undefined` (arrays are truthy). -/
def analyze_trends (sourceData : String → TrendData)
    (sources : Option (List String)) : ToolOutcome (List TrendData) :=
  ToolOutcome.success (TrendAnalyzer.analyze sourceData (sources.getD ["dexscreener"]))

/-- Structured token concept produced by the TokenNamer. -/
structure TokenConcept where
  name : String
  symbol : String
  description : String
deriving DecidableEq

/-- Modelled from the spec: TokenNamer.generate is missing from the
sources (strategy/namer.ts is not under src/); the spec treats the
metadata/trend collaborators as "opaque string/JSON producers" with no
failure mode, so the namer is a total oracle. The generate_token_concept
tool handler (index.ts lines 264-269) returns the namer's structured
result directly, defaulting the style to memecoin via the JS `x || d`
idiom. -/
def generate_token_concept (namer : Option String → String → TokenConcept)
    (theme : Option String) (style : Option String) : ToolOutcome TokenConcept :=
  ToolOutcome.success (namer theme (jsOrStr style "memecoin"))

/-- Survival tier (monitor/survival.ts line 124). -/
inductive SurvivalTier where
  | normal
  | low_compute
  | critical
  | dead
deriving DecidableEq, BEq

/-- Hourly burn rate at the normal tier (monitor/survival.ts line 133). -/
def CONWAY_COST_PER_HOUR_NORMAL : ℚ := 0.5

/-- Hourly burn rate at the low_compute tier (monitor/survival.ts line 134). -/
def CONWAY_COST_PER_HOUR_LOW : ℚ := 0.1

/-- Hourly burn rate at the critical tier (monitor/survival.ts line 135). -/
def CONWAY_COST_PER_HOUR_CRITICAL : ℚ := 0.02

/-- The tier-selection chain of SurvivalMapper.checkStatus
(monitor/survival.ts lines 159-179): a pure function of the
compute-credit balance. -/
def survivalTier (credits : ℚ) : SurvivalTier :=
  if credits > 24 * CONWAY_COST_PER_HOUR_NORMAL then SurvivalTier.normal
  else if credits > 12 * CONWAY_COST_PER_HOUR_LOW then SurvivalTier.low_compute
  else if credits > 0 then SurvivalTier.critical
  else SurvivalTier.dead

/-- The burn rate associated with the selected tier in the same chain
(monitor/survival.ts lines 166, 170, 174, 178). -/
def survivalCostPerHour : SurvivalTier → ℚ
  | SurvivalTier.normal => CONWAY_COST_PER_HOUR_NORMAL
  | SurvivalTier.low_compute => CONWAY_COST_PER_HOUR_LOW
  | SurvivalTier.critical => CONWAY_COST_PER_HOUR_CRITICAL
  | SurvivalTier.dead => 0

/-- JS Math.round(x * 10) / 10 rounding to one decimal used by the
monitors (portfolio.ts line 103, survival.ts line 202). -/
def jsRound1 (q : ℚ) : ℚ := (Int.floor (q * 10 + 1 / 2) : ℚ) / 10

/-- Per-token performance entry produced by
PortfolioMonitor.getTokenPerformance (monitor/portfolio.ts lines 19-31). -/
structure TokenPerformance where
  mint : String
  symbol : String
  name : String
  status : TokenStatus
  deployedAt : ℤ
  ageHours : ℚ
  price : ℚ
  volume24h : ℚ
  holders : ℕ
  feesEarned : ℚ
  retainedValue : ℚ
deriving DecidableEq

/-- PortfolioMonitor.getTokenPerformance (monitor/portfolio.ts lines
64-110): price and holder lookups are caught oracles; the observed 24h
volume is the constant 0 (line 105) and retainedValue the constant 0
(line 108). -/
def getTokenPerformance (now : ℤ) (priceOf : String → ℚ)
    (holdersOf : String → ℕ) (token : DeployedToken) : TokenPerformance :=
  { mint := token.mint
    symbol := token.symbol
    name := token.name
    status := token.status
    deployedAt := token.deployedAt
    ageHours := jsRound1 (((now - token.deployedAt : ℤ) : ℚ) / 3600000)
    price := priceOf token.mint
    volume24h := 0
    holders := holdersOf token.mint
    feesEarned := token.totalFeesEarned
    retainedValue := 0 }

/-- Portfolio summary produced by PortfolioMonitor.getFullPortfolio
(monitor/portfolio.ts lines 10-17). -/
structure PortfolioSummary where
  totalTokens : ℕ
  activeTokens : ℕ
  deadTokens : ℕ
  totalValueSol : ℚ
  totalFeesEarned : ℚ
  tokens : List TokenPerformance
deriving DecidableEq

/-- PortfolioMonitor.getFullPortfolio (monitor/portfolio.ts lines 42-62). -/
def getFullPortfolio (now : ℤ) (priceOf : String → ℚ)
    (holdersOf : String → ℕ) (tokens : List DeployedToken) : PortfolioSummary :=
  let performances := tokens.map (getTokenPerformance now priceOf holdersOf)
  { totalTokens := tokens.length
    activeTokens := (tokens.filter (fun t => decide (t.status = TokenStatus.active))).length
    deadTokens := (tokens.filter (fun t => decide (t.status = TokenStatus.dead))).length
    totalValueSol := (performances.map (fun p => p.retainedValue)).sum
    totalFeesEarned := (performances.map (fun p => p.feesEarned)).sum
    tokens := performances }

/-- The check_portfolio tool handler (index.ts lines 234-236): returns
getFullPortfolio directly. Every collaborator call inside
getTokenPerformance is wrapped in try/catch (portfolio.ts lines 73-95),
so the caught lookups appear as the total oracles `priceOf` and
`holdersOf` and the handler never throws. -/
def check_portfolio (now : ℤ) (priceOf : String → ℚ) (holdersOf : String → ℕ)
    (tokens : List DeployedToken) : ToolOutcome PortfolioSummary :=
  ToolOutcome.success (getFullPortfolio now priceOf holdersOf tokens)

/-- Set a token's status to dead (index.ts line 284). -/
def killToken (t : DeployedToken) : DeployedToken :=
  { t with status := TokenStatus.dead }

/-- The findIndex-by-mint followed by in-place status assignment of the
portfolio_check heartbeat (index.ts lines 283-284): the first entry with
the given mint is marked dead. -/
def markMintDead : String → List DeployedToken → List DeployedToken
  | _, [] => []
  | m, t :: ts => if t.mint = m then killToken t :: ts else t :: markMintDead m ts

/-- The portfolio_check heartbeat (index.ts lines 273-288): builds the
portfolio, then marks dead every token whose performance entry shows
zero 24h volume and an age above 86400000 ms. Returns the new token
list written back with setState. -/
def portfolio_check (now : ℤ) (priceOf : String → ℚ)
    (holdersOf : String → ℕ) (tokens : List DeployedToken) :
    List DeployedToken :=
  if tokens.length = 0 then tokens
  else
    let portfolio := getFullPortfolio now priceOf holdersOf tokens
    portfolio.tokens.foldl
      (fun acc p =>
        if p.volume24h = 0 ∧ now - p.deployedAt > 86400000 then
          markMintDead p.mint acc
        else acc)
      tokens

/-! ### Shared concrete fixtures used by witnesses and counterexamples -/

/-- A representative configuration: defaults of loadConfig (index.ts
lines 357-371) with a 0.5 SOL survival reserve, 5 concurrent tokens and
a 60 minute cooldown. -/
def sampleConfig : TokenLauncherConfig :=
  { creatorAddress := "CREATOR"
    creatorFeeSplit := 10
    pumpfunEnabled := true
    raydiumEnabled := true
    survivalReserveSol := 1 / 2
    maxConcurrentTokens := 5
    deployCooldownMs := 3600000 }

/-- Fresh skill state: no tokens, zero counters. -/
def emptyState : SkillState :=
  { deployedTokens := [], lastDeployTimestamp := 0, totalInvested := 0, totalEarned := 0 }

/-- A treasury whose SOL balance makes the solvency gate an exact
boundary case for `sampleParams`: 2.05 − 1.55 = 0.5 = reserve. -/
def sampleTreasury : TreasuryView :=
  { solBalance := 41 / 20, usdcBalance := 0, conwayCredits := 0, walletAddress := "WALLET" }

/-- Deploy parameters with explicit 0.5 initial buy and 1.0 LP, so the
projected cost is 0.5 + 1.0 + 0.05 = 1.55. -/
def sampleParams : DeployMemecoinParams :=
  { name := "Sample", symbol := "SMP", description := "sample token"
    imagePrompt := none, initialBuySol := some (1 / 2), lpSol := some 1, method := none }

/-- Collaborators that all throw with the same message. -/
def collabFail : DeployCollab :=
  { pumpfunResult := Except.error "deploy failed"
    directResult := Except.error "deploy failed"
    createPoolResult := Except.error "deploy failed" }

/-! ### String helper lemmas for distinguishing rejection messages -/

theorem data_append (s t : String) : (s ++ t).data = s.data ++ t.data := by
  cases s
  cases t
  rfl

theorem ne_of_head (x y : String) (h : x.data.head? ≠ y.data.head?) : x ≠ y :=
  fun he => h (congrArg (fun s => s.data.head?) he)

theorem head_append (s t : String) (c : Char) (h : s.data.head? = some c) :
    (s ++ t).data.head? = some c := by
  rw [data_append]
  cases hs : s.data with
  | nil => simp [hs] at h
  | cons a as =>
    rw [hs] at h
    simpa using h

theorem rejectMsg_concurrency_head (cfg : TokenLauncherConfig) :
    (rejectMsg cfg Reject.concurrency).data.head? = some ('M') := by
  apply head_append
  apply head_append
  rfl

theorem rejectMsg_solvency_head (cfg : TokenLauncherConfig) (n a : ℚ) :
    (rejectMsg cfg (Reject.solvency n a)).data.head? = some ('I') := by
  apply head_append
  apply head_append
  apply head_append
  apply head_append
  rfl

theorem rejectMsg_cooldown_head (cfg : TokenLauncherConfig) (w : ℤ) :
    (rejectMsg cfg (Reject.cooldown w)).data.head? = some ('C') := by
  apply head_append
  apply head_append
  rfl

/-! ### Pre-flight gate characterisation -/

theorem preflight_concurrency_iff (cfg : TokenLauncherConfig)
    (treasury : TreasuryView) (now : ℤ) (st : SkillState)
    (params : DeployMemecoinParams) :
    preflight cfg treasury now st params = some Reject.concurrency ↔
      cfg.maxConcurrentTokens ≤ activeTokenCount st := by
  unfold preflight
  split_ifs with h1 h2 h3 <;> simp_all [ge_iff_le]

theorem preflight_solvency_iff (cfg : TokenLauncherConfig)
    (treasury : TreasuryView) (now : ℤ) (st : SkillState)
    (params : DeployMemecoinParams) (n a : ℚ) :
    preflight cfg treasury now st params = some (Reject.solvency n a) ↔
      (activeTokenCount st < cfg.maxConcurrentTokens ∧
       treasury.solBalance - totalCostOf params < cfg.survivalReserveSol ∧
       n = totalCostOf params ∧
       a = treasury.solBalance - cfg.survivalReserveSol) := by
  unfold preflight
  split_ifs with h1 h2 h3 <;> simp_all [ge_iff_le, not_le, eq_comm]

theorem preflight_cooldown_iff (cfg : TokenLauncherConfig)
    (treasury : TreasuryView) (now : ℤ) (st : SkillState)
    (params : DeployMemecoinParams) (w : ℤ) :
    preflight cfg treasury now st params = some (Reject.cooldown w) ↔
      (activeTokenCount st < cfg.maxConcurrentTokens ∧
       cfg.survivalReserveSol ≤ treasury.solBalance - totalCostOf params ∧
       now - st.lastDeployTimestamp < cfg.deployCooldownMs ∧
       w = cooldownWaitMin cfg now st.lastDeployTimestamp) := by
  unfold preflight
  split_ifs with h1 h2 h3 <;> simp_all [ge_iff_le, not_le, not_lt, eq_comm]

/-! ### Claim theorems -/

/-- C1: for a deploy_memecoin request that reaches the solvency gate
(the concurrency gate admits), the gate admits the request exactly when
balance minus projected cost (initialBuySol-or-0.5 + lpSol-or-1.0 +
0.05) is at least the configured survival reserve; in particular the
boundary case balance − cost = reserve is admitted, not rejected. -/
theorem solvency_gate_admits_iff (cfg : TokenLauncherConfig)
    (treasury : TreasuryView) (now : ℤ) (st : SkillState)
    (params : DeployMemecoinParams)
    (hconc : activeTokenCount st < cfg.maxConcurrentTokens) :
    (isSolvencyReject (preflight cfg treasury now st params) = false ↔
      cfg.survivalReserveSol ≤ treasury.solBalance - totalCostOf params) ∧
    (treasury.solBalance - totalCostOf params = cfg.survivalReserveSol →
      isSolvencyReject (preflight cfg treasury now st params) = false) := by
  have hc : ¬ (activeTokenCount st ≥ cfg.maxConcurrentTokens) := not_le.mpr hconc
  unfold preflight
  rw [if_neg hc]
  by_cases h2 : treasury.solBalance - totalCostOf params < cfg.survivalReserveSol
  · rw [if_pos h2]
    refine ⟨⟨fun hfalse => ?_, fun hle => ?_⟩, fun heq => ?_⟩
    · simp [isSolvencyReject] at hfalse
    · exact absurd hle (not_le.mpr h2)
    · rw [heq] at h2
      exact absurd h2 (lt_irrefl _)
  · rw [if_neg h2]
    have hle := not_lt.mp h2
    by_cases h3 : now - st.lastDeployTimestamp < cfg.deployCooldownMs
    · rw [if_pos h3]
      exact ⟨⟨fun _ => hle, fun _ => rfl⟩, fun _ => rfl⟩
    · rw [if_neg h3]
      exact ⟨⟨fun _ => hle, fun _ => rfl⟩, fun _ => rfl⟩

/-- Witness for C1 at the exact boundary: balance 2.05, cost 1.55,
reserve 0.5, so balance − cost = reserve and the solvency gate admits. -/
theorem solvency_gate_boundary_witness :
    isSolvencyReject (preflight sampleConfig sampleTreasury 0 emptyState sampleParams) = false :=
  (solvency_gate_admits_iff sampleConfig sampleTreasury 0 emptyState sampleParams
      (by norm_num [activeTokenCount, emptyState, sampleConfig])).2
    (by norm_num [sampleTreasury, sampleConfig, totalCostOf, jsOrQ, sampleParams])

/-- C2: the three admission gates are evaluated in the order
concurrency, then solvency, then cooldown: each rejection is
characterised by its own gate condition conjoined with all earlier
gates admitting; any gate rejection makes deploy_memecoin return the
gate's message with the state unchanged; the three messages are
pairwise distinct; and a cooldown rejection carries the remaining wait
rounded up to whole minutes. -/
theorem deploy_gate_order_and_reasons (cfg : TokenLauncherConfig)
    (treasury : TreasuryView) (now : ℤ) (st : SkillState)
    (params : DeployMemecoinParams) (collab : DeployCollab) :
    (preflight cfg treasury now st params = some Reject.concurrency ↔
      cfg.maxConcurrentTokens ≤ activeTokenCount st) ∧
    (∀ n a, preflight cfg treasury now st params = some (Reject.solvency n a) ↔
      (activeTokenCount st < cfg.maxConcurrentTokens ∧
       treasury.solBalance - totalCostOf params < cfg.survivalReserveSol ∧
       n = totalCostOf params ∧
       a = treasury.solBalance - cfg.survivalReserveSol)) ∧
    (∀ w, preflight cfg treasury now st params = some (Reject.cooldown w) ↔
      (activeTokenCount st < cfg.maxConcurrentTokens ∧
       cfg.survivalReserveSol ≤ treasury.solBalance - totalCostOf params ∧
       now - st.lastDeployTimestamp < cfg.deployCooldownMs ∧
       w = cooldownWaitMin cfg now st.lastDeployTimestamp)) ∧
    (∀ r, preflight cfg treasury now st params = some r →
      deploy_memecoin cfg collab (Except.ok treasury) now params st =
        (ToolOutcome.err (rejectMsg cfg r), st)) ∧
    (∀ n a w,
      rejectMsg cfg Reject.concurrency ≠ rejectMsg cfg (Reject.solvency n a) ∧
      rejectMsg cfg Reject.concurrency ≠ rejectMsg cfg (Reject.cooldown w) ∧
      rejectMsg cfg (Reject.solvency n a) ≠ rejectMsg cfg (Reject.cooldown w)) := by
  refine ⟨preflight_concurrency_iff cfg treasury now st params,
    preflight_solvency_iff cfg treasury now st params,
    preflight_cooldown_iff cfg treasury now st params,
    fun r hr => ?_, fun n a w => ⟨?_, ?_, ?_⟩⟩
  · simp [deploy_memecoin, hr]
  · apply ne_of_head
    rw [rejectMsg_concurrency_head, rejectMsg_solvency_head]
    decide
  · apply ne_of_head
    rw [rejectMsg_concurrency_head, rejectMsg_cooldown_head]
    decide
  · apply ne_of_head
    rw [rejectMsg_solvency_head, rejectMsg_cooldown_head]
    decide

/-- Witness for C2: with max concurrency 0 the first gate fires. -/
theorem deploy_gate_order_witness :
    preflight { sampleConfig with maxConcurrentTokens := 0 } sampleTreasury 0
      emptyState sampleParams = some Reject.concurrency :=
  (deploy_gate_order_and_reasons { sampleConfig with maxConcurrentTokens := 0 }
      sampleTreasury 0 emptyState sampleParams collabFail).1.mpr
    (by norm_num [activeTokenCount, emptyState])

/-- C3: a deploy_memecoin call that does not return success leaves the
registry, cooldown timestamp and totalInvested unchanged; a deployer or
pool collaborator failure is surfaced verbatim as the returned error;
and only on collaborator success are the new position appended, the
cooldown timestamp advanced and the spend added to totalInvested. -/
theorem deploy_memecoin_state_discipline (cfg : TokenLauncherConfig)
    (collab : DeployCollab) (treasuryQ : Except String TreasuryView) (now : ℤ)
    (params : DeployMemecoinParams) (st : SkillState) :
    ((deploy_memecoin cfg collab treasuryQ now params st).1.isSuccess = false →
      (deploy_memecoin cfg collab treasuryQ now params st).2 = st) ∧
    (∀ treasury e, treasuryQ = Except.ok treasury →
      preflight cfg treasury now st params = none →
      deployAttempt cfg collab params (params.method.getD DeployMethod.pumpfun) =
        Except.error e →
      (deploy_memecoin cfg collab treasuryQ now params st).1 = ToolOutcome.err e) ∧
    (∀ result,
      (deploy_memecoin cfg collab treasuryQ now params st).1 =
        ToolOutcome.success result →
      (deploy_memecoin cfg collab treasuryQ now params st).2 =
        { deployedTokens := st.deployedTokens ++
            [mkDeployedToken params (params.method.getD DeployMethod.pumpfun) now result]
          lastDeployTimestamp := now
          totalInvested := st.totalInvested + totalCostOf params
          totalEarned := st.totalEarned }) := by
  refine ⟨?_, ?_, ?_⟩
  · cases treasuryQ with
    | error e => simp [deploy_memecoin]
    | ok treasury =>
      cases hpf : preflight cfg treasury now st params with
      | some r => simp [deploy_memecoin, hpf]
      | none =>
        cases hda : deployAttempt cfg collab params (params.method.getD DeployMethod.pumpfun) with
        | error e => simp [deploy_memecoin, hpf, hda]
        | ok result => simp [deploy_memecoin, hpf, hda, ToolOutcome.isSuccess]
  · intro treasury e htq hpf hda
    subst htq
    simp [deploy_memecoin, hpf, hda]
  · intro result hres
    cases treasuryQ with
    | error e => simp [deploy_memecoin] at hres
    | ok treasury =>
      cases hpf : preflight cfg treasury now st params with
      | some r => simp [deploy_memecoin, hpf] at hres
      | none =>
        cases hda : deployAttempt cfg collab params (params.method.getD DeployMethod.pumpfun) with
        | error e => simp [deploy_memecoin, hpf, hda] at hres
        | ok result0 =>
          simp only [deploy_memecoin, hpf, hda, ToolOutcome.success.injEq] at hres
          subst hres
          simp [deploy_memecoin, hpf, hda]

/-- Witness for C3: a throwing pump.fun deployer surfaces its message
verbatim as the returned error value. -/
theorem deploy_memecoin_state_witness :
    (deploy_memecoin sampleConfig collabFail (Except.ok sampleTreasury) 3600000
        sampleParams emptyState).1 = ToolOutcome.err "deploy failed" :=
  (deploy_memecoin_state_discipline sampleConfig collabFail (Except.ok sampleTreasury)
      3600000 sampleParams emptyState).2.1 sampleTreasury "deploy failed" rfl
    (by norm_num [preflight, activeTokenCount, totalCostOf, jsOrQ,
      sampleConfig, sampleTreasury, emptyState, sampleParams])
    rfl

/-- An already-registered active position. -/
def activeTokenA : DeployedToken :=
  { mint := "MINTA", name := "Alpha", symbol := "ALP", method := DeployMethod.pumpfun
    deployedAt := 0, lpAddress := none, initialSupply := 1000000000
    retainedSupply := 50000000, totalFeesEarned := 0, status := TokenStatus.active }

/-- A state holding one active position and nonzero counters. -/
def fullState : SkillState :=
  { deployedTokens := [activeTokenA], lastDeployTimestamp := 123
    totalInvested := 7, totalEarned := 3 }

/-- Configuration whose concurrency limit is already reached by
`fullState` (one active position, limit one). -/
def tightConfig : TokenLauncherConfig :=
  { sampleConfig with maxConcurrentTokens := 1 }

/-- Utility-token parameters without an LP request. -/
def utilParams : UtilityTokenParams :=
  { name := "Utility", symbol := "UTL", description := "utility token"
    supply := none, decimals := none, freezeAuthority := none, lpSol := none }

/-- A successful utility deployer result. -/
def utilResult : DeployResult :=
  { mint := "MINTU", supply := 1000000000, retainedAmount := 50000000
    lpAddress := none, txSignature := "TXU" }

/-- Counterexample to C4: with the concurrency limit already reached
(one active position, limit one), deploy_utility_token still appends a
new position, and neither the cooldown timestamp nor totalInvested
changes — so positions are not created exclusively through the gated
admission path. -/
theorem utility_token_bypass_cex :
    ((deploy_utility_token tightConfig (Except.ok utilResult) (Except.error "no pool")
        999 utilParams fullState).2.deployedTokens.length =
      fullState.deployedTokens.length + 1) ∧
    ((deploy_utility_token tightConfig (Except.ok utilResult) (Except.error "no pool")
        999 utilParams fullState).2.lastDeployTimestamp = fullState.lastDeployTimestamp) ∧
    ((deploy_utility_token tightConfig (Except.ok utilResult) (Except.error "no pool")
        999 utilParams fullState).2.totalInvested = fullState.totalInvested) ∧
    tightConfig.maxConcurrentTokens ≤ activeTokenCount fullState := by
  refine ⟨?_, ?_, ?_, ?_⟩ <;>
    simp [deploy_utility_token, jsTruthyQ, mkUtilityToken, tightConfig, sampleConfig,
      utilParams, utilResult, fullState, activeTokenCount, activeTokenA]

/-- C4 amended: deploy_memecoin creates positions exclusively through
the gated admission path — a gate rejection leaves the state unchanged,
and success implies all gates admitted, advances the cooldown timestamp
and adds the spend to totalInvested — but deploy_utility_token appends
a position on collaborator success without evaluating any admission
gate (for every configuration and state) and without touching
lastDeployTimestamp or totalInvested. -/
theorem utility_token_gating_amended (cfg : TokenLauncherConfig)
    (collab : DeployCollab) (treasury : TreasuryView) (now : ℤ)
    (mparams : DeployMemecoinParams) (dres : Except String DeployResult)
    (pres : Except String PoolCreateResult) (uparams : UtilityTokenParams)
    (st : SkillState) :
    (∀ r, preflight cfg treasury now st mparams = some r →
      (deploy_memecoin cfg collab (Except.ok treasury) now mparams st).2 = st) ∧
    (∀ result,
      (deploy_memecoin cfg collab (Except.ok treasury) now mparams st).1 =
        ToolOutcome.success result →
      preflight cfg treasury now st mparams = none ∧
      (deploy_memecoin cfg collab (Except.ok treasury) now mparams st).2.lastDeployTimestamp = now ∧
      (deploy_memecoin cfg collab (Except.ok treasury) now mparams st).2.totalInvested =
        st.totalInvested + totalCostOf mparams) ∧
    (∀ result,
      (deploy_utility_token cfg dres pres now uparams st).1 =
        ToolOutcome.success result →
      (deploy_utility_token cfg dres pres now uparams st).2.deployedTokens =
        st.deployedTokens ++ [mkUtilityToken uparams now result] ∧
      (deploy_utility_token cfg dres pres now uparams st).2.lastDeployTimestamp =
        st.lastDeployTimestamp ∧
      (deploy_utility_token cfg dres pres now uparams st).2.totalInvested =
        st.totalInvested) := by
  refine ⟨?_, ?_, ?_⟩
  · intro r hr
    simp [deploy_memecoin, hr]
  · intro result hres
    cases hpf : preflight cfg treasury now st mparams with
    | some r => simp [deploy_memecoin, hpf] at hres
    | none =>
      cases hda : deployAttempt cfg collab mparams (mparams.method.getD DeployMethod.pumpfun) with
      | error e => simp [deploy_memecoin, hpf, hda] at hres
      | ok result0 => exact ⟨rfl, by simp [deploy_memecoin, hpf, hda], by simp [deploy_memecoin, hpf, hda]⟩
  · intro result hres
    cases dres with
    | error e => simp [deploy_utility_token] at hres
    | ok r0 =>
      by_cases hc : cfg.raydiumEnabled ∧ jsTruthyQ uparams.lpSol
      · cases pres with
        | error e =>
          simp [deploy_utility_token, if_pos hc] at hres
        | ok lp =>
          simp only [deploy_utility_token, if_pos hc, ToolOutcome.success.injEq] at hres
          subst hres
          simp [deploy_utility_token, if_pos hc]
      · simp only [deploy_utility_token, if_neg hc, ToolOutcome.success.injEq] at hres
        subst hres
        simp [deploy_utility_token, if_neg hc]

/-- Witness for C4's amended claim: the ungated utility deployment at a
state violating the concurrency limit leaves the cooldown timestamp
unchanged while having appended the position. -/
theorem utility_token_gating_witness :
    (deploy_utility_token tightConfig (Except.ok utilResult) (Except.error "no pool")
        999 utilParams fullState).2.lastDeployTimestamp = fullState.lastDeployTimestamp :=
  ((utility_token_gating_amended tightConfig collabFail sampleTreasury 999
      sampleParams (Except.ok utilResult) (Except.error "no pool") utilParams
      fullState).2.2 utilResult rfl).2.1

/-- The normal-tier threshold: 24 hours at the normal burn rate. -/
theorem survivalTier_normal_iff (c : ℚ) :
    survivalTier c = SurvivalTier.normal ↔ 12 < c := by
  unfold survivalTier
  rw [show (24 * CONWAY_COST_PER_HOUR_NORMAL : ℚ) = 12 by
        norm_num [CONWAY_COST_PER_HOUR_NORMAL],
      show (12 * CONWAY_COST_PER_HOUR_LOW : ℚ) = 6 / 5 by
        norm_num [CONWAY_COST_PER_HOUR_LOW]]
  split_ifs with h1 h2 h3 <;> simp_all

/-- The low_compute band: above 12 hours at the reduced burn rate, at
most the normal threshold. -/
theorem survivalTier_low_iff (c : ℚ) :
    survivalTier c = SurvivalTier.low_compute ↔ (6 / 5 < c ∧ c ≤ 12) := by
  unfold survivalTier
  rw [show (24 * CONWAY_COST_PER_HOUR_NORMAL : ℚ) = 12 by
        norm_num [CONWAY_COST_PER_HOUR_NORMAL],
      show (12 * CONWAY_COST_PER_HOUR_LOW : ℚ) = 6 / 5 by
        norm_num [CONWAY_COST_PER_HOUR_LOW]]
  split_ifs with h1 h2 h3 <;> simp_all [not_lt]

/-- The critical band: positive credits at most the low_compute
threshold. -/
theorem survivalTier_critical_iff (c : ℚ) :
    survivalTier c = SurvivalTier.critical ↔ (0 < c ∧ c ≤ 6 / 5) := by
  unfold survivalTier
  rw [show (24 * CONWAY_COST_PER_HOUR_NORMAL : ℚ) = 12 by
        norm_num [CONWAY_COST_PER_HOUR_NORMAL],
      show (12 * CONWAY_COST_PER_HOUR_LOW : ℚ) = 6 / 5 by
        norm_num [CONWAY_COST_PER_HOUR_LOW]]
  split_ifs with h1 h2 h3 <;> simp_all [not_lt]
  all_goals intro h
  all_goals linarith

/-- The dead tier: no credits left. -/
theorem survivalTier_dead_iff (c : ℚ) :
    survivalTier c = SurvivalTier.dead ↔ c ≤ 0 := by
  unfold survivalTier
  rw [show (24 * CONWAY_COST_PER_HOUR_NORMAL : ℚ) = 12 by
        norm_num [CONWAY_COST_PER_HOUR_NORMAL],
      show (12 * CONWAY_COST_PER_HOUR_LOW : ℚ) = 6 / 5 by
        norm_num [CONWAY_COST_PER_HOUR_LOW]]
  split_ifs with h1 h2 h3 <;> simp_all [not_lt]
  all_goals linarith

/-- Counterexample to C5: with credits = 11 the selection chain lands in
low_compute (11 > 12·0.1 = 1.2), not critical as the claim states. -/
theorem survival_tier_eleven_cex :
    survivalTier 11 = SurvivalTier.low_compute ∧
    survivalTier 11 ≠ SurvivalTier.critical := by
  have h : survivalTier 11 = SurvivalTier.low_compute := by
    norm_num [survivalTier, CONWAY_COST_PER_HOUR_NORMAL, CONWAY_COST_PER_HOUR_LOW]
  refine ⟨h, ?_⟩
  rw [h]
  decide

/-- C5 amended: the survival tier is a pure function of the credit
balance under the fixed burn rates, with bands normal (credits > 24·0.5
= 12), low_compute (12·0.1 = 1.2 < credits ≤ 12), critical
(0 < credits ≤ 1.2), dead (credits ≤ 0); in particular credits = 11
gives low_compute. -/
theorem survival_tier_thresholds (c : ℚ) :
    (survivalTier c = SurvivalTier.normal ↔ 12 < c) ∧
    (survivalTier c = SurvivalTier.low_compute ↔ (6 / 5 < c ∧ c ≤ 12)) ∧
    (survivalTier c = SurvivalTier.critical ↔ (0 < c ∧ c ≤ 6 / 5)) ∧
    (survivalTier c = SurvivalTier.dead ↔ c ≤ 0) ∧
    survivalTier 11 = SurvivalTier.low_compute :=
  ⟨survivalTier_normal_iff c, survivalTier_low_iff c, survivalTier_critical_iff c,
    survivalTier_dead_iff c,
    (survivalTier_low_iff 11).mpr (by norm_num)⟩

/-- Witness for C5's amended claim at credits = 11. -/
theorem survival_tier_thresholds_witness :
    survivalTier 11 = SurvivalTier.low_compute :=
  (survival_tier_thresholds 11).2.2.2.2

/-! ### Harvest loop characterisation -/

theorem harvestLoop_spec (lpCollect : String → Except String CollectFeesResult)
    (pumpFees : String → ℚ) (ts : List DeployedToken) :
    ∀ total bd sigs,
      (harvestLoop lpCollect pumpFees ts (total, bd, sigs)).1 =
        total + (ts.map (fun t => (harvestEntry lpCollect pumpFees t).1.lpFees +
          (harvestEntry lpCollect pumpFees t).1.creatorFees)).sum ∧
      (harvestLoop lpCollect pumpFees ts (total, bd, sigs)).2.1 =
        bd ++ ts.map (fun t => (harvestEntry lpCollect pumpFees t).1) := by
  induction ts with
  | nil =>
    intro total bd sigs
    simp [harvestLoop]
  | cons t ts ih =>
    intro total bd sigs
    rw [harvestLoop]
    refine ⟨?_, ?_⟩
    · rw [(ih _ _ _).1]
      simp [add_assoc]
    · rw [(ih _ _ _).2]
      simp

/-- The harvest total equals the sum of per-position contributions over
the in-scope positions. -/
theorem harvest_total_eq (target : String) (tokens : List DeployedToken)
    (lpCollect : String → Except String CollectFeesResult) (pumpFees : String → ℚ) :
    (FeeHarvester.harvest target tokens lpCollect pumpFees).totalHarvested =
      ((activeScope target tokens).map
        (fun tk => (harvestEntry lpCollect pumpFees tk).1.lpFees +
          (harvestEntry lpCollect pumpFees tk).1.creatorFees)).sum := by
  simp only [FeeHarvester.harvest]
  rw [(harvestLoop_spec lpCollect pumpFees (activeScope target tokens) 0 [] []).1]
  simp

/-- The harvest breakdown lists exactly the in-scope positions, in
order, each with its per-position entry. -/
theorem harvest_breakdown_eq (target : String) (tokens : List DeployedToken)
    (lpCollect : String → Except String CollectFeesResult) (pumpFees : String → ℚ) :
    (FeeHarvester.harvest target tokens lpCollect pumpFees).breakdown =
      (activeScope target tokens).map (fun tk => (harvestEntry lpCollect pumpFees tk).1) := by
  simp only [FeeHarvester.harvest]
  rw [(harvestLoop_spec lpCollect pumpFees (activeScope target tokens) 0 [] []).2]
  simp

/-- The harvest total equals the sum of lpFees + creatorFees over the
returned breakdown. -/
theorem harvest_total_eq_breakdown_sum (target : String)
    (tokens : List DeployedToken)
    (lpCollect : String → Except String CollectFeesResult) (pumpFees : String → ℚ) :
    (FeeHarvester.harvest target tokens lpCollect pumpFees).totalHarvested =
      ((FeeHarvester.harvest target tokens lpCollect pumpFees).breakdown.map
        (fun e => e.lpFees + e.creatorFees)).sum := by
  rw [harvest_total_eq, harvest_breakdown_eq, List.map_map]
  rfl

/-! ### Harvest fixtures -/

/-- An active pump.fun position without a pool. -/
def tokenPump : DeployedToken :=
  { mint := "MINTP", name := "Pump", symbol := "PMP", method := DeployMethod.pumpfun
    deployedAt := 0, lpAddress := none, initialSupply := 1000000000
    retainedSupply := 0, totalFeesEarned := 0, status := TokenStatus.active }

/-- An active direct-deployed position with a Raydium pool. -/
def tokenPool : DeployedToken :=
  { mint := "MINTL", name := "Pool", symbol := "POO", method := DeployMethod.raydium
    deployedAt := 0, lpAddress := some "POOL1", initialSupply := 1000000000
    retainedSupply := 0, totalFeesEarned := 0, status := TokenStatus.active }

/-- An LP fee collector that throws for pool POOL1 and succeeds
elsewhere. -/
def lpCollectW : String → Except String CollectFeesResult :=
  fun a => if a = "POOL1" then Except.error "lp query failed"
    else Except.ok { solFees := 5, tokenFees := 0, txSignature := "SIGX" }

/-- A creator-fee scan returning 1.5 SOL for every pump.fun position. -/
def pumpFeesW : String → ℚ := fun _ => 3 / 2

/-- A registry with the two active positions above. -/
def harvestState : SkillState :=
  { deployedTokens := [tokenPump, tokenPool], lastDeployTimestamp := 0
    totalInvested := 2, totalEarned := 1 }

/-! ### Claim theorems for the harvester -/

/-- C6: after any harvest_fees call, totalEarned equals its previous
value plus the sum of (lpFees + creatorFees) over the harvest
breakdown, exactly — for every behaviour of the creator payout-split
transfer, whose failure does not roll the ledger update back. -/
theorem harvest_total_earned_exact (cfg : TokenLauncherConfig)
    (params : HarvestParams) (sendSolRes : Except String String)
    (lpCollect : String → Except String CollectFeesResult)
    (pumpFees : String → ℚ) (st : SkillState) :
    (harvest_fees cfg params sendSolRes lpCollect pumpFees st).2.totalEarned =
      st.totalEarned +
        ((FeeHarvester.harvest (jsOrStr params.tokenMint "all") st.deployedTokens
            lpCollect pumpFees).breakdown.map
          (fun e => e.lpFees + e.creatorFees)).sum := by
  rw [← harvest_total_eq_breakdown_sum]
  simp only [harvest_fees]
  split_ifs with h
  · cases sendSolRes <;> rfl
  · rfl

/-- Witness for C6 at a concrete harvest (one failing LP query, one
pump.fun position, successful payout). -/
theorem harvest_total_earned_witness :
    (harvest_fees sampleConfig { tokenMint := none } (Except.ok "paid") lpCollectW
        pumpFeesW harvestState).2.totalEarned =
      harvestState.totalEarned +
        ((FeeHarvester.harvest (jsOrStr ({ tokenMint := none } : HarvestParams).tokenMint "all")
            harvestState.deployedTokens lpCollectW pumpFeesW).breakdown.map
          (fun e => e.lpFees + e.creatorFees)).sum :=
  harvest_total_earned_exact sampleConfig { tokenMint := none } (Except.ok "paid")
    lpCollectW pumpFeesW harvestState

/-- C7: a harvest in which one in-scope position's liquidity-fee query
throws still completes: the breakdown lists every in-scope position in
order, the failing position's entry contributes zero for the LP stream
while its creator-fee stream is still counted, and the total is the sum
over all entries. -/
theorem harvest_partial_failure_isolated (target : String)
    (tokens : List DeployedToken)
    (lpCollect : String → Except String CollectFeesResult) (pumpFees : String → ℚ)
    (t : DeployedToken) (a e : String)
    (hmem : t ∈ activeScope target tokens) (ha : t.lpAddress = some a)
    (hne : a ≠ "") (hfail : lpCollect a = Except.error e) :
    (FeeHarvester.harvest target tokens lpCollect pumpFees).breakdown =
      (activeScope target tokens).map (fun tk => (harvestEntry lpCollect pumpFees tk).1) ∧
    (harvestEntry lpCollect pumpFees t).1.lpFees = 0 ∧
    (harvestEntry lpCollect pumpFees t).1.creatorFees =
      (if t.method = DeployMethod.pumpfun then pumpFees t.mint else 0) ∧
    (FeeHarvester.harvest target tokens lpCollect pumpFees).totalHarvested =
      ((activeScope target tokens).map
        (fun tk => (harvestEntry lpCollect pumpFees tk).1.lpFees +
          (harvestEntry lpCollect pumpFees tk).1.creatorFees)).sum := by
  refine ⟨harvest_breakdown_eq target tokens lpCollect pumpFees, ?_, ?_,
    harvest_total_eq target tokens lpCollect pumpFees⟩
  · simp [harvestEntry, ha, hne, hfail]
  · simp [harvestEntry]

/-- Witness for C7: the position whose pool query throws contributes
zero LP fees at a concrete two-position harvest. -/
theorem harvest_partial_failure_witness :
    (harvestEntry lpCollectW pumpFeesW tokenPool).1.lpFees = 0 :=
  (harvest_partial_failure_isolated "all" harvestState.deployedTokens lpCollectW
      pumpFeesW tokenPool "POOL1" "lp query failed"
      (by simp [activeScope, harvestState, tokenPump, tokenPool])
      rfl (by decide) rfl).2.1

/-- C8 evaluation at the failing input: a harvest that collects a
positive amount (1.5 SOL of creator fees) leaves every position's
totalFeesEarned untouched in the registry — the cumulative fees field
is never increased by harvest_fees. -/
theorem harvest_registry_totals_eval :
    (FeeHarvester.harvest "all" harvestState.deployedTokens lpCollectW
        pumpFeesW).totalHarvested = 3 / 2 ∧
    (harvest_fees sampleConfig { tokenMint := none } (Except.ok "paid") lpCollectW
        pumpFeesW harvestState).2.deployedTokens = harvestState.deployedTokens ∧
    ((harvest_fees sampleConfig { tokenMint := none } (Except.ok "paid") lpCollectW
        pumpFeesW harvestState).2.deployedTokens.map
      (fun t => t.totalFeesEarned)) = [0, 0] := by
  have htot : (FeeHarvester.harvest "all" harvestState.deployedTokens lpCollectW
      pumpFeesW).totalHarvested = 3 / 2 := by
    rw [harvest_total_eq]
    norm_num [activeScope, harvestState, tokenPump, tokenPool, harvestEntry,
      lpCollectW, pumpFeesW]
    decide
  refine ⟨htot, ?_, ?_⟩ <;>
    simp [harvest_fees, harvestState, tokenPump, tokenPool]

/-- Counterexample to C9: when the treasury balance query throws, the
check_treasury tool propagates the exception past the tool boundary
instead of returning an error-shaped value. -/
theorem check_treasury_throws_cex :
    check_treasury (Except.error "RPC error") emptyState =
      ToolOutcome.thrown "RPC error" ∧
    (check_treasury (Except.error "RPC error") emptyState).isThrown = true :=
  ⟨rfl, rfl⟩

/-- C9 amended: every exposed tool except check_treasury and
deploy_memecoin — deploy_utility_token, harvest_fees, swap_to_usdc,
check_portfolio, analyze_trends and generate_token_concept — returns a
structured payload or an error value for every collaborator behaviour
including throws, and deploy_memecoin does so whenever the treasury
query succeeds; but check_treasury and deploy_memecoin propagate an
exception past the tool boundary when the treasury balance query throws
(the getTreasuryState call sits outside any try/catch). -/
theorem tool_boundary_amended (cfg : TokenLauncherConfig) :
    (∀ (dres : Except String DeployResult) (pres : Except String PoolCreateResult)
      (now : ℤ) (uparams : UtilityTokenParams) (st : SkillState),
      ((deploy_utility_token cfg dres pres now uparams st).1).isThrown = false) ∧
    (∀ (params : HarvestParams) (sendSolRes : Except String String)
      (lpCollect : String → Except String CollectFeesResult)
      (pumpFees : String → ℚ) (st : SkillState),
      ((harvest_fees cfg params sendSolRes lpCollect pumpFees st).1).isThrown = false) ∧
    (∀ swapRes : Except String SwapResult,
      (swap_to_usdc swapRes).isThrown = false) ∧
    (∀ (now : ℤ) (priceOf : String → ℚ) (holdersOf : String → ℕ)
      (tokens : List DeployedToken),
      (check_portfolio now priceOf holdersOf tokens).isThrown = false) ∧
    (∀ (sourceData : String → TrendData) (sources : Option (List String)),
      (analyze_trends sourceData sources).isThrown = false) ∧
    (∀ (namer : Option String → String → TokenConcept) (theme style : Option String),
      (generate_token_concept namer theme style).isThrown = false) ∧
    (∀ (collab : DeployCollab) (treasury : TreasuryView) (now : ℤ)
      (params : DeployMemecoinParams) (st : SkillState),
      ((deploy_memecoin cfg collab (Except.ok treasury) now params st).1).isThrown = false) ∧
    (∀ (e : String) (st : SkillState),
      check_treasury (Except.error e) st = ToolOutcome.thrown e) ∧
    (∀ (collab : DeployCollab) (e : String) (now : ℤ)
      (params : DeployMemecoinParams) (st : SkillState),
      (deploy_memecoin cfg collab (Except.error e) now params st).1 =
        ToolOutcome.thrown e) := by
  refine ⟨?_, ?_, ?_, fun now priceOf holdersOf tokens => rfl,
    fun sourceData sources => rfl, fun namer theme style => rfl,
    ?_, fun e st => rfl, fun collab e now params st => rfl⟩
  · intro dres pres now uparams st
    cases dres with
    | error e => rfl
    | ok r0 =>
      by_cases hc : cfg.raydiumEnabled ∧ jsTruthyQ uparams.lpSol
      · cases pres with
        | error e => simp [deploy_utility_token, if_pos hc, ToolOutcome.isThrown]
        | ok lp => simp [deploy_utility_token, if_pos hc, ToolOutcome.isThrown]
      · simp [deploy_utility_token, if_neg hc, ToolOutcome.isThrown]
  · intro params sendSolRes lpCollect pumpFees st
    simp only [harvest_fees]
    split_ifs with h
    · cases sendSolRes <;> rfl
    · rfl
  · intro swapRes
    cases swapRes <;> rfl
  · intro collab treasury now params st
    cases hpf : preflight cfg treasury now st params with
    | some r => simp [deploy_memecoin, hpf, ToolOutcome.isThrown]
    | none =>
      cases hda : deployAttempt cfg collab params (params.method.getD DeployMethod.pumpfun) with
      | error e => simp [deploy_memecoin, hpf, hda, ToolOutcome.isThrown]
      | ok result => simp [deploy_memecoin, hpf, hda, ToolOutcome.isThrown]

/-- Witness for C9's amended claim: a throwing swap collaborator is
returned as an error value, not an exception. -/
theorem tool_boundary_witness :
    (swap_to_usdc (Except.error "jupiter down")).isThrown = false :=
  (tool_boundary_amended sampleConfig).2.2.1 (Except.error "jupiter down")

/-! ### Portfolio staleness marking -/

/-- Proof-side helper: kill every token whose mint is in the set S. -/
def killIn (S : List String) (t : DeployedToken) : DeployedToken :=
  if t.mint ∈ S then killToken t else t

/-- Proof-side helper: the mints of the stale performance entries, in
processing order, accumulated onto S. -/
def collectStale (now : ℤ) : List TokenPerformance → List String → List String
  | [], s => s
  | p :: ps, s =>
    collectStale now ps
      (if p.volume24h = 0 ∧ now - p.deployedAt > 86400000 then p.mint :: s else s)

theorem killIn_mint (S : List String) (t : DeployedToken) :
    (killIn S t).mint = t.mint := by
  unfold killIn killToken
  split <;> rfl

theorem killIn_cons_ne (m : String) (S : List String) (t : DeployedToken)
    (h : t.mint ≠ m) : killIn (m :: S) t = killIn S t := by
  unfold killIn
  by_cases hS : t.mint ∈ S <;> simp [List.mem_cons, h, hS]

theorem killToken_killIn (S : List String) (t : DeployedToken) :
    killToken (killIn S t) = killToken t := by
  unfold killIn
  split <;> rfl

theorem markMintDead_map_killIn (m : String) (S : List String) :
    ∀ tokens : List DeployedToken, (tokens.map (fun t => t.mint)).Nodup →
      markMintDead m (tokens.map (killIn S)) = tokens.map (killIn (m :: S)) := by
  intro tokens
  induction tokens with
  | nil => intro _; rfl
  | cons t ts ih =>
    intro hnd
    rw [List.map_cons] at hnd
    simp only [List.map_cons, markMintDead, killIn_mint]
    by_cases hm : t.mint = m
    · rw [if_pos hm, killToken_killIn]
      have htail : ∀ u ∈ ts, u.mint ≠ m := by
        intro u hu he
        exact (List.nodup_cons.mp hnd).1
          (hm ▸ he ▸ List.mem_map_of_mem (fun x => x.mint) hu)
      have hmap : ts.map (killIn S) = ts.map (killIn (m :: S)) :=
        List.map_congr_left (fun u hu => (killIn_cons_ne m S u (htail u hu)).symm)
      rw [hmap]
      have hhead : killIn (m :: S) t = killToken t := by
        unfold killIn
        rw [if_pos (by rw [hm]; exact List.mem_cons_self m S)]
      rw [hhead]
    · rw [if_neg hm, ih (List.nodup_cons.mp hnd).2, killIn_cons_ne m S t hm]

theorem foldl_mark_spec (now : ℤ) :
    ∀ (ps : List TokenPerformance) (S : List String) (tokens : List DeployedToken),
      (tokens.map (fun t => t.mint)).Nodup →
      ps.foldl
        (fun acc p =>
          if p.volume24h = 0 ∧ now - p.deployedAt > 86400000 then
            markMintDead p.mint acc
          else acc)
        (tokens.map (killIn S)) =
      tokens.map (killIn (collectStale now ps S)) := by
  intro ps
  induction ps with
  | nil => intro S tokens _; rfl
  | cons p ps ih =>
    intro S tokens hnd
    rw [List.foldl_cons, collectStale]
    by_cases hc : p.volume24h = 0 ∧ now - p.deployedAt > 86400000
    · rw [if_pos hc, if_pos hc, markMintDead_map_killIn p.mint S tokens hnd]
      exact ih (p.mint :: S) tokens hnd
    · rw [if_neg hc, if_neg hc]
      exact ih S tokens hnd

theorem mem_collectStale_of_mem (now : ℤ) :
    ∀ (ps : List TokenPerformance) (S : List String) (m : String),
      m ∈ S → m ∈ collectStale now ps S := by
  intro ps
  induction ps with
  | nil => intro S m h; exact h
  | cons p ps ih =>
    intro S m h
    rw [collectStale]
    by_cases hc : p.volume24h = 0 ∧ now - p.deployedAt > 86400000
    · rw [if_pos hc]
      exact ih _ m (List.mem_cons_of_mem _ h)
    · rw [if_neg hc]
      exact ih _ m h

theorem stale_mint_mem_collectStale (now : ℤ) :
    ∀ (ps : List TokenPerformance) (S : List String) (p : TokenPerformance),
      p ∈ ps → p.volume24h = 0 → now - p.deployedAt > 86400000 →
      p.mint ∈ collectStale now ps S := by
  intro ps
  induction ps with
  | nil => intro S p h _ _; exact absurd h (List.not_mem_nil p)
  | cons q ps ih =>
    intro S p hp hv hd
    rw [collectStale]
    rcases List.mem_cons.mp hp with rfl | hp2
    · rw [if_pos ⟨hv, hd⟩]
      exact mem_collectStale_of_mem now ps _ _ (List.mem_cons_self _ _)
    · by_cases hc : q.volume24h = 0 ∧ now - q.deployedAt > 86400000
      · rw [if_pos hc]
        exact ih _ p hp2 hv hd
      · rw [if_neg hc]
        exact ih _ p hp2 hv hd

theorem mem_collectStale_elim (now : ℤ) :
    ∀ (ps : List TokenPerformance) (S : List String) (m : String),
      m ∈ collectStale now ps S →
      m ∈ S ∨ ∃ p ∈ ps, (p.volume24h = 0 ∧ now - p.deployedAt > 86400000) ∧ p.mint = m := by
  intro ps
  induction ps with
  | nil => intro S m h; exact Or.inl h
  | cons q ps ih =>
    intro S m h
    rw [collectStale] at h
    by_cases hc : q.volume24h = 0 ∧ now - q.deployedAt > 86400000
    · rw [if_pos hc] at h
      rcases ih _ m h with hS | ⟨p, hp, hc2, hm⟩
      · rcases List.mem_cons.mp hS with rfl | hS2
        · exact Or.inr ⟨q, List.mem_cons_self _ _, hc, rfl⟩
        · exact Or.inl hS2
      · exact Or.inr ⟨p, List.mem_cons_of_mem _ hp, hc2, hm⟩
    · rw [if_neg hc] at h
      rcases ih _ m h with hS | ⟨p, hp, hc2, hm⟩
      · exact Or.inl hS
      · exact Or.inr ⟨p, List.mem_cons_of_mem _ hp, hc2, hm⟩

/-- Under distinct mints, one portfolio_check run maps every token
older than the staleness window to its killed copy and leaves the rest
unchanged. -/
theorem portfolio_check_eq_map (now : ℤ) (priceOf : String → ℚ)
    (holdersOf : String → ℕ) (tokens : List DeployedToken)
    (hnd : (tokens.map (fun t => t.mint)).Nodup) :
    portfolio_check now priceOf holdersOf tokens =
      tokens.map (fun t =>
        if now - t.deployedAt > 86400000 then killToken t else t) := by
  by_cases hlen : tokens.length = 0
  · rw [portfolio_check, if_pos hlen]
    cases tokens with
    | nil => rfl
    | cons a b => simp at hlen
  · rw [portfolio_check, if_neg hlen]
    have h0 : tokens = tokens.map (killIn []) := by
      have : ∀ t ∈ tokens, t = killIn [] t := by
        intro t _
        unfold killIn
        simp
      calc tokens = tokens.map id := (List.map_id tokens).symm
        _ = tokens.map (killIn []) := List.map_congr_left (fun a ha => this a ha)
    simp only [getFullPortfolio]
    nth_rewrite 1 [h0]
    rw [foldl_mark_spec now (tokens.map (getTokenPerformance now priceOf holdersOf)) [] tokens hnd]
    apply List.map_congr_left
    intro t ht
    by_cases hst : now - t.deployedAt > 86400000
    · rw [if_pos hst]
      unfold killIn
      have hm : t.mint ∈ collectStale now
          (tokens.map (getTokenPerformance now priceOf holdersOf)) [] :=
        stale_mint_mem_collectStale now _ []
          (getTokenPerformance now priceOf holdersOf t)
          (List.mem_map_of_mem _ ht) rfl hst
      rw [if_pos hm]
    · rw [if_neg hst]
      unfold killIn
      rw [if_neg ?nomem]
      case nomem =>
        intro hmem
        rcases mem_collectStale_elim now _ [] t.mint hmem with h | ⟨p, hp, ⟨hv, hd⟩, hm⟩
        · exact absurd h (List.not_mem_nil _)
        · rcases List.mem_map.mp hp with ⟨u, hu, rfl⟩
          have hut : u = t :=
            List.inj_on_of_nodup_map hnd hu ht hm
          rw [hut] at hd
          exact hst hd

/-- A token used as the List.getD fallback; never selected in the
theorems below. -/
def defaultToken : DeployedToken :=
  { mint := "", name := "", symbol := "", method := DeployMethod.pumpfun
    deployedAt := 0, lpAddress := none, initialSupply := 0, retainedSupply := 0
    totalFeesEarned := 0, status := TokenStatus.active }

/-- C10: the portfolio monitor reports every position's observed 24h
volume as the constant 0, and therefore one portfolio_check run (over a
registry with distinct mints) sets status dead on every token whose age
exceeds 86400000 ms, regardless of its current status — graduated
included. -/
theorem portfolio_check_kills_stale (now : ℤ) (priceOf : String → ℚ)
    (holdersOf : String → ℕ) (tokens : List DeployedToken)
    (hnd : (tokens.map (fun t => t.mint)).Nodup) :
    (∀ t, (getTokenPerformance now priceOf holdersOf t).volume24h = 0) ∧
    (portfolio_check now priceOf holdersOf tokens =
      tokens.map (fun t =>
        if now - t.deployedAt > 86400000 then killToken t else t)) ∧
    (∀ i, i < tokens.length →
      now - (tokens.getD i defaultToken).deployedAt > 86400000 →
      ((portfolio_check now priceOf holdersOf tokens).getD i defaultToken).status =
        TokenStatus.dead) := by
  refine ⟨fun t => rfl, portfolio_check_eq_map now priceOf holdersOf tokens hnd, ?_⟩
  intro i hi hst
  rw [List.getD_eq_getElem?_getD, List.getElem?_eq_getElem hi, Option.getD_some] at hst
  rw [portfolio_check_eq_map now priceOf holdersOf tokens hnd,
    List.getD_eq_getElem?_getD, List.getElem?_map, List.getElem?_eq_getElem hi]
  simp only [Option.map_some', Option.getD_some]
  rw [if_pos hst]
  rfl

/-- A graduated position older than 24 hours. -/
def gradToken : DeployedToken :=
  { mint := "MINTG", name := "Grad", symbol := "GRD", method := DeployMethod.pumpfun
    deployedAt := 0, lpAddress := none, initialSupply := 1000000000
    retainedSupply := 0, totalFeesEarned := 0, status := TokenStatus.graduated }

/-- Witness for C10: one heartbeat run marks a graduated token deployed
86400001 ms ago as dead. -/
theorem portfolio_check_kills_stale_witness :
    ((portfolio_check 86400001 (fun _ => 0) (fun _ => 0) [gradToken]).getD 0
      defaultToken).status = TokenStatus.dead :=
  (portfolio_check_kills_stale 86400001 (fun _ => 0) (fun _ => 0) [gradToken]
      (by simp)).2.2 0 (by decide) (by decide)

end ConwayMint
